import Mathlib

/-!
Shallow embedding of the vLLM ADK client adapter (Go package vllm).

The package adapts an OpenAI-compatible vLLM server to the ADK llm.Client
interfaces.  We embed the data shapes (framework messages, OpenAI wire
shapes), the lazy memoized transport construction (Client.newOpenAIClient),
the synchronous chat path (Client.Chat), the stream-open path
(Client.ChatStream) and the stream adapter (streamWrapper.Recv).

The HTTP transport is external to the package; it is modelled as a function
parameter returning either a response or an error cause (a String), and the
underlying streaming cursor is modelled as a list of read events consumed
one per pull.
-/

namespace Vllm

/-- llm.Role is a string type in the host framework; llm.RoleAssistant is
the constant string label used for assistant messages. -/
def RoleAssistant : String := "assistant"

/-- llm.Message: a role label together with textual content. -/
structure Message where
  Role : String
  Content : String
deriving DecidableEq, Repr

/-- llm.ChatRequest: an ordered sequence of messages. -/
structure ChatRequest where
  Messages : List Message
deriving DecidableEq, Repr

/-- llm.ChatResponse: a single reply message. -/
structure ChatResponse where
  Message : Message
deriving DecidableEq, Repr

/-- openai.ChatCompletionMessage: wire shape of one message. -/
structure ChatCompletionMessage where
  Role : String
  Content : String
deriving DecidableEq, Repr

/-- openai.ChatCompletionChoice: one candidate completion. -/
structure ChatCompletionChoice where
  Message : ChatCompletionMessage
deriving DecidableEq, Repr

/-- openai.ChatCompletionResponse: the synchronous completion response. -/
structure ChatCompletionResponse where
  Choices : List ChatCompletionChoice
deriving DecidableEq, Repr

/-- openai.ChatCompletionStreamChoiceDelta: the incremental fragment inside
one streaming chunk (the adapter reads only Content; Role is carried for
role-announcement-only chunks). -/
structure ChatCompletionStreamChoiceDelta where
  Role : String
  Content : String
deriving DecidableEq, Repr

/-- openai.ChatCompletionStreamChoice: one streamed candidate. -/
structure ChatCompletionStreamChoice where
  Delta : ChatCompletionStreamChoiceDelta
deriving DecidableEq, Repr

/-- openai.ChatCompletionStreamResponse: one streaming chunk. -/
structure ChatCompletionStreamResponse where
  Choices : List ChatCompletionStreamChoice
deriving DecidableEq, Repr

/-- openai.ChatCompletionRequest: the wire request body
(model, ordered messages, streaming flag). -/
structure ChatCompletionRequest where
  Model : String
  Messages : List ChatCompletionMessage
  Stream : Bool
deriving DecidableEq, Repr

/-- The configured OpenAI transport handle.  go-openai's NewClientWithConfig
wraps the configuration; the observable configuration state is the API root
and the credential, so the handle is modelled as that configuration. -/
structure OpenAIClient where
  BaseURL : String
  APIKey : String
deriving DecidableEq, Repr

/-- openai.DefaultConfig: default configuration pointing at the public
OpenAI endpoint, holding the given credential. -/
def DefaultConfig (apiKey : String) : OpenAIClient :=
  { BaseURL := "https://api.openai.com/v1", APIKey := apiKey }

/-- vllm.Client: base URL (without /v1), model identifier, bearer credential,
and the lazily constructed memoized transport handle oa. -/
structure Client where
  BaseURL : String
  Model : String
  APIKey : String
  oa : Option OpenAIClient := none
deriving DecidableEq, Repr

/-- The error values produced by the vllm package itself.  Each fmt.Errorf
construction site becomes one constructor; chatError and streamError wrap
the underlying transport cause (modelled as a String). -/
inductive VllmError where
  | baseURLEmpty
  | modelEmpty
  | chatError (cause : String)
  | noChoices
  | streamError (cause : String)
deriving DecidableEq, Repr

/-- Client.newOpenAIClient: return the memoized handle if present; otherwise
validate that BaseURL and Model are non-empty, derive the API root by
appending /v1 to the base URL once, build the handle, and memoize it on the
client.  Returns the handle together with the updated client (the Go method
mutates the receiver field oa). -/
def Client.newOpenAIClient (c : Client) : Except VllmError (OpenAIClient × Client) :=
  match c.oa with
  | some oa => Except.ok (oa, c)
  | none =>
    if c.BaseURL = "" then Except.error VllmError.baseURLEmpty
    else if c.Model = "" then Except.error VllmError.modelEmpty
    else
      let cfg := DefaultConfig c.APIKey
      let cfg2 := { cfg with BaseURL := c.BaseURL ++ "/v1" }
      Except.ok (cfg2, { c with oa := some cfg2 })

/-- The message-translation loop shared verbatim by Chat and ChatStream:
each llm.Message becomes a wire message with the role as a bare string and
the content unchanged, in order. -/
def toWireMessages (ms : List Message) : List ChatCompletionMessage :=
  ms.map (fun m => { Role := m.Role, Content := m.Content })

/-- Continuation of Client.Chat after CreateChatCompletion returns: a
transport failure is wrapped as the chat error; zero choices is the explicit
no-choices error; otherwise the first choice's role and content become the
single output message.  The pair mirrors Go's (value, error) return. -/
def chatContinue (result : Except String ChatCompletionResponse) :
    Option ChatResponse × Option VllmError :=
  match result with
  | Except.error e => (none, some (VllmError.chatError e))
  | Except.ok resp =>
    match resp.Choices with
    | [] => (none, some VllmError.noChoices)
    | choice :: _ =>
      (some { Message := { Role := choice.Message.Role, Content := choice.Message.Content } },
       none)

/-- Client.Chat: ensure the transport handle exists, translate the messages,
issue one non-streaming completion call, and postprocess via chatContinue.
The transport call CreateChatCompletion is modelled as the function
parameter transport. -/
def Client.Chat (c : Client)
    (transport : OpenAIClient → ChatCompletionRequest → Except String ChatCompletionResponse)
    (req : ChatRequest) : Option ChatResponse × Option VllmError :=
  match c.newOpenAIClient with
  | Except.error e => (none, some e)
  | Except.ok (oa, _) =>
    chatContinue (transport oa
      { Model := c.Model, Messages := toWireMessages req.Messages, Stream := false })

/-- One read outcome of the underlying go-openai stream cursor: either the
io.EOF sentinel or a mid-stream read error message. -/
inductive RecvErr where
  | ioEOF
  | readErr (msg : String)
deriving DecidableEq, Repr

/-- One event produced by the underlying streaming cursor: a decoded chunk,
or a read failure (including the io.EOF sentinel). -/
inductive StreamEvent where
  | chunkEv (c : ChatCompletionStreamResponse)
  | errEv (e : RecvErr)
deriving DecidableEq, Repr

/-- streamWrapper: adapts the underlying ChatCompletionStream, modelled as
the list of events the cursor will deliver; an exhausted list keeps
reporting io.EOF, as the real cursor does after the DONE sentinel. -/
structure streamWrapper where
  stream : List StreamEvent
deriving DecidableEq, Repr

/-- The underlying cursor's blocking Recv: pop the next event, yielding
either an error outcome or a chunk, together with the rest of the cursor. -/
def rawRecv : List StreamEvent → (Sum RecvErr ChatCompletionStreamResponse) × List StreamEvent
  | [] => (Sum.inl RecvErr.ioEOF, [])
  | StreamEvent.chunkEv c :: rest => (Sum.inr c, rest)
  | StreamEvent.errEv e :: rest => (Sum.inl e, rest)

/-- The branch structure of streamWrapper.Recv applied to one underlying
read outcome: io.EOF is passed through as io.EOF, any other error is
returned verbatim, a chunk with zero choices or with empty first-choice
delta content yields (nil, nil), and otherwise a delta response with role
assistant and the chunk's delta content is returned. -/
def recvStep (r : Sum RecvErr ChatCompletionStreamResponse) :
    Option ChatResponse × Option RecvErr :=
  match r with
  | Sum.inl e =>
    if e = RecvErr.ioEOF then (none, some RecvErr.ioEOF)
    else (none, some e)
  | Sum.inr chunk =>
    match chunk.Choices with
    | [] => (none, none)
    | choice :: _ =>
      let delta := choice.Delta
      if delta.Content = "" then (none, none)
      else
        (some { Message := { Role := RoleAssistant, Content := delta.Content } }, none)

/-- streamWrapper.Recv: read the next outcome from the underlying cursor and
apply the adapter branch structure; the advanced cursor is returned as the
new wrapper state. -/
def streamWrapper.Recv (s : streamWrapper) :
    (Option ChatResponse × Option RecvErr) × streamWrapper :=
  let (r, rest) := rawRecv s.stream
  (recvStep r, { stream := rest })

/-- Continuation of Client.ChatStream after CreateChatCompletionStream
returns: a synchronous open failure is wrapped as the stream error and no
cursor is produced; on success the raw cursor is wrapped in the adapter. -/
def streamContinue (result : Except String (List StreamEvent)) :
    Option streamWrapper × Option VllmError :=
  match result with
  | Except.error e => (none, some (VllmError.streamError e))
  | Except.ok events => (some { stream := events }, none)

/-- Client.ChatStream: ensure the transport handle exists, translate the
messages, open the streaming completion call (modelled as the function
parameter transport returning the cursor event list or a synchronous open
failure), and postprocess via streamContinue.  The pair mirrors Go's
(llm.ChatStream, error) return. -/
def Client.ChatStream (c : Client)
    (transport : OpenAIClient → ChatCompletionRequest → Except String (List StreamEvent))
    (req : ChatRequest) : Option streamWrapper × Option VllmError :=
  match c.newOpenAIClient with
  | Except.error e => (none, some e)
  | Except.ok (oa, _) =>
    streamContinue (transport oa
      { Model := c.Model, Messages := toWireMessages req.Messages, Stream := true })

/-! Concrete values used by the testable-property scenarios and the
witnesses: a configured client (handle already built, as in the package's
tests) and the two-chunk hello-world stream. -/

/-- A built transport handle for the local vLLM endpoint. -/
def oaW : OpenAIClient :=
  { BaseURL := "http://localhost:8001/v1", APIKey := "dummy" }

/-- A client whose transport handle has already been built and memoized. -/
def clientW : Client :=
  { BaseURL := "http://localhost:8001", Model := "mistral", APIKey := "dummy",
    oa := some oaW }

/-- A one-message request, as in the package's tests. -/
def reqW : ChatRequest := { Messages := [{ Role := "user", Content := "hi" }] }

/-- A streaming chunk whose single choice carries delta content "hello ". -/
def helloChunk : ChatCompletionStreamResponse :=
  { Choices := [{ Delta := { Role := "", Content := "hello " } }] }

/-- A streaming chunk whose single choice carries delta content "world". -/
def worldChunk : ChatCompletionStreamResponse :=
  { Choices := [{ Delta := { Role := "", Content := "world" } }] }

/-- The well-formed two-chunk stream of the hello-world scenario. -/
def twoChunkStream : streamWrapper :=
  { stream := [StreamEvent.chunkEv helloChunk, StreamEvent.chunkEv worldChunk] }

/-- Claim C1: a single pull on a chunk whose first choice carries non-empty
delta content returns exactly one delta message with role fixed to
assistant and content equal to the chunk's delta content as received, and
the concrete two-chunk stream with contents "hello " and "world" yields,
across sequential pulls, exactly two non-empty deltas whose contents
concatenate to "hello world", followed by the end-of-stream signal. -/
theorem recv_delta_exact_content :
    (∀ (chunk : ChatCompletionStreamResponse) (choice : ChatCompletionStreamChoice)
       (tl : List ChatCompletionStreamChoice) (rest : List StreamEvent),
       chunk.Choices = choice :: tl → choice.Delta.Content ≠ "" →
       streamWrapper.Recv { stream := StreamEvent.chunkEv chunk :: rest } =
         ((some { Message := { Role := RoleAssistant, Content := choice.Delta.Content } },
           none),
          { stream := rest }))
  ∧ (twoChunkStream.Recv.1 =
       (some { Message := { Role := RoleAssistant, Content := "hello " } }, none)
     ∧ twoChunkStream.Recv.2.Recv.1 =
       (some { Message := { Role := RoleAssistant, Content := "world" } }, none)
     ∧ twoChunkStream.Recv.2.Recv.2.Recv.1 = (none, some RecvErr.ioEOF)
     ∧ "hello " ++ "world" = "hello world"
     ∧ ("hello " ≠ "" ∧ "world" ≠ "")) := by
  constructor
  · intro chunk choice tl rest hc hne
    simp [streamWrapper.Recv, rawRecv, recvStep, hc, hne]
  · refine ⟨?_, ?_, ?_, ?_, ?_, ?_⟩ <;> decide

/-- Witness for claim C1 at the concrete hello-chunk input. -/
theorem recv_delta_exact_content_witness :
    streamWrapper.Recv { stream := [StreamEvent.chunkEv helloChunk] } =
      ((some { Message := { Role := RoleAssistant, Content := "hello " } }, none),
       { stream := [] }) :=
  recv_delta_exact_content.1 helloChunk
    { Delta := { Role := "", Content := "hello " } } [] [] rfl (by decide)

/-- Claim C2: a pull on a chunk with zero choices, or on a chunk whose
first choice has empty delta content, yields the EMPTY outcome (no delta,
no error) and does not terminate the stream: the adapter advances to the
next event, so a subsequent pull proceeds to the next chunk. -/
theorem recv_empty_chunk :
    (∀ (rest : List StreamEvent),
       streamWrapper.Recv { stream := StreamEvent.chunkEv { Choices := [] } :: rest } =
         ((none, none), { stream := rest }))
  ∧ (∀ (r : String) (tl : List ChatCompletionStreamChoice) (rest : List StreamEvent),
       streamWrapper.Recv
           { stream := StreamEvent.chunkEv
               { Choices := { Delta := { Role := r, Content := "" } } :: tl } :: rest } =
         ((none, none), { stream := rest })) := by
  constructor
  · intro rest
    simp [streamWrapper.Recv, rawRecv, recvStep]
  · intro r tl rest
    simp [streamWrapper.Recv, rawRecv, recvStep]

/-- Claim C3: when the underlying cursor reports end-of-stream the pull
returns the explicit end-of-stream signal io.EOF, which is not a read
error; when the underlying cursor reports a mid-stream read error, that
error is returned verbatim from the pull; and the two outcomes are
distinguishable. -/
theorem recv_eof_and_error :
    (∀ (rest : List StreamEvent),
       streamWrapper.Recv { stream := StreamEvent.errEv RecvErr.ioEOF :: rest } =
         ((none, some RecvErr.ioEOF), { stream := rest }))
  ∧ streamWrapper.Recv { stream := [] } =
      ((none, some RecvErr.ioEOF), { stream := [] })
  ∧ (∀ (m : String) (rest : List StreamEvent),
       streamWrapper.Recv { stream := StreamEvent.errEv (RecvErr.readErr m) :: rest } =
         ((none, some (RecvErr.readErr m)), { stream := rest }))
  ∧ (∀ (m : String), RecvErr.readErr m ≠ RecvErr.ioEOF) := by
  refine ⟨?_, ?_, ?_, ?_⟩
  · intro rest
    simp [streamWrapper.Recv, rawRecv, recvStep]
  · simp [streamWrapper.Recv, rawRecv, recvStep]
  · intro m rest
    simp [streamWrapper.Recv, rawRecv, recvStep]
  · intro m h
    exact RecvErr.noConfusion h

/-- Claim C10: every pull returns exactly one of the four outcomes — a
delta with no error, the empty outcome, the end-of-stream sentinel, or a
non-sentinel error — never both a response and an error, and every
returned response has role assistant and strictly non-empty content. -/
theorem recv_four_outcomes (s : streamWrapper) :
    (¬ (s.Recv.1.1 ≠ none ∧ s.Recv.1.2 ≠ none))
  ∧ ((∃ resp, s.Recv.1 = (some resp, none)
        ∧ resp.Message.Role = RoleAssistant ∧ resp.Message.Content ≠ "")
     ∨ s.Recv.1 = (none, none)
     ∨ s.Recv.1 = (none, some RecvErr.ioEOF)
     ∨ (∃ m, s.Recv.1 = (none, some (RecvErr.readErr m)))) := by
  obtain ⟨events⟩ := s
  match events with
  | [] =>
      refine ⟨?_, ?_⟩ <;> simp [streamWrapper.Recv, rawRecv, recvStep]
  | StreamEvent.errEv RecvErr.ioEOF :: rest =>
      refine ⟨?_, ?_⟩ <;> simp [streamWrapper.Recv, rawRecv, recvStep]
  | StreamEvent.errEv (RecvErr.readErr m) :: rest =>
      refine ⟨?_, ?_⟩ <;> simp [streamWrapper.Recv, rawRecv, recvStep]
  | StreamEvent.chunkEv { Choices := [] } :: rest =>
      refine ⟨?_, ?_⟩ <;> simp [streamWrapper.Recv, rawRecv, recvStep]
  | StreamEvent.chunkEv { Choices := choice :: tl } :: rest =>
      by_cases h : choice.Delta.Content = "" <;>
        refine ⟨?_, ?_⟩ <;> simp [streamWrapper.Recv, rawRecv, recvStep, h]

/-- A concrete one-choice completion response, as in the package's tests. -/
def respW : ChatCompletionResponse :=
  { Choices := [{ Message := { Role := "assistant", Content := "hello from vllm" } }] }

/-- Claim C4: when the transport response carries at least one choice, Chat
returns exactly the first choice's role and content as the single output
message; and the result is the same for every transport response sharing
that first choice, so subsequent choices are never observable. -/
theorem chat_first_choice
    (c : Client) (oa : OpenAIClient) (hoa : c.oa = some oa)
    (transport : OpenAIClient → ChatCompletionRequest → Except String ChatCompletionResponse)
    (req : ChatRequest) (resp : ChatCompletionResponse)
    (choice : ChatCompletionChoice) (tl : List ChatCompletionChoice)
    (ht : transport oa
        { Model := c.Model, Messages := toWireMessages req.Messages, Stream := false } =
      Except.ok resp)
    (hch : resp.Choices = choice :: tl) :
    c.Chat transport req =
      (some { Message := { Role := choice.Message.Role, Content := choice.Message.Content } },
       none)
  ∧ (∀ (transport2 : OpenAIClient → ChatCompletionRequest →
          Except String ChatCompletionResponse)
       (resp2 : ChatCompletionResponse) (tl2 : List ChatCompletionChoice),
       transport2 oa
           { Model := c.Model, Messages := toWireMessages req.Messages, Stream := false } =
         Except.ok resp2 →
       resp2.Choices = choice :: tl2 →
       c.Chat transport2 req = c.Chat transport req) := by
  constructor
  · simp [Client.Chat, Client.newOpenAIClient, hoa, ht, chatContinue, hch]
  · intro transport2 resp2 tl2 ht2 hch2
    simp [Client.Chat, Client.newOpenAIClient, hoa, ht, ht2, chatContinue, hch, hch2]

/-- Witness for claim C4 at the concrete configured client and one-choice
response. -/
theorem chat_first_choice_witness :
    clientW.Chat (fun _ _ => Except.ok respW) reqW =
      (some { Message := { Role := "assistant", Content := "hello from vllm" } }, none) :=
  (chat_first_choice clientW oaW rfl (fun _ _ => Except.ok respW) reqW respW
    { Message := { Role := "assistant", Content := "hello from vllm" } } [] rfl rfl).1

/-- Claim C5: when the transport response is structurally valid but carries
zero choices, Chat fails with the explicit no-choices error, which is
distinct from the wrapped transport-failure error returned on network
failure or non-success response. -/
theorem chat_no_choices
    (c : Client) (oa : OpenAIClient) (hoa : c.oa = some oa)
    (transport : OpenAIClient → ChatCompletionRequest → Except String ChatCompletionResponse)
    (req : ChatRequest) (resp : ChatCompletionResponse)
    (ht : transport oa
        { Model := c.Model, Messages := toWireMessages req.Messages, Stream := false } =
      Except.ok resp)
    (h0 : resp.Choices = []) :
    c.Chat transport req = (none, some VllmError.noChoices)
  ∧ (∀ (e : String), VllmError.noChoices ≠ VllmError.chatError e) := by
  constructor
  · simp [Client.Chat, Client.newOpenAIClient, hoa, ht, chatContinue, h0]
  · intro e h
    exact VllmError.noConfusion h

/-- Witness for claim C5 at the concrete configured client and a zero-choice
response. -/
theorem chat_no_choices_witness :
    clientW.Chat (fun _ _ => Except.ok { Choices := [] }) reqW =
      (none, some VllmError.noChoices) :=
  (chat_no_choices clientW oaW rfl (fun _ _ => Except.ok { Choices := [] }) reqW
    { Choices := [] } rfl rfl).1

/-- Claim C6: for a valid configuration the derived API root is the base
endpoint with exactly one /v1 segment appended, requesting the transport
again from the updated configuration returns the very same handle, and once
a handle is memoized every request returns it unchanged without rebuilding
or re-validating. -/
theorem newOpenAIClient_derivation_memoized
    (c : Client) (hb : c.BaseURL ≠ "") (hm : c.Model ≠ "") (h0 : c.oa = none) :
    (∃ oa c2, c.newOpenAIClient = Except.ok (oa, c2)
      ∧ oa.BaseURL = c.BaseURL ++ "/v1"
      ∧ c2.newOpenAIClient = Except.ok (oa, c2))
  ∧ (∀ (c3 : Client) (oa3 : OpenAIClient), c3.oa = some oa3 →
       c3.newOpenAIClient = Except.ok (oa3, c3)) := by
  constructor
  · refine ⟨{ BaseURL := c.BaseURL ++ "/v1", APIKey := c.APIKey },
      { c with oa := some { BaseURL := c.BaseURL ++ "/v1", APIKey := c.APIKey } }, ?_, rfl, ?_⟩
    · simp [Client.newOpenAIClient, h0, hb, hm, DefaultConfig]
    · simp [Client.newOpenAIClient]
  · intro c3 oa3 h3
    simp [Client.newOpenAIClient, h3]

/-- Witness for claim C6 at a concrete fresh valid configuration. -/
theorem newOpenAIClient_derivation_memoized_witness :
    (∃ oa c2,
      Client.newOpenAIClient
          { BaseURL := "http://localhost:8001", Model := "mistral", APIKey := "dummy",
            oa := none } =
        Except.ok (oa, c2)
      ∧ oa.BaseURL = "http://localhost:8001" ++ "/v1"
      ∧ c2.newOpenAIClient = Except.ok (oa, c2))
  ∧ (∀ (c3 : Client) (oa3 : OpenAIClient), c3.oa = some oa3 →
       c3.newOpenAIClient = Except.ok (oa3, c3)) :=
  newOpenAIClient_derivation_memoized
    { BaseURL := "http://localhost:8001", Model := "mistral", APIKey := "dummy", oa := none }
    (by decide) (by decide) rfl

/-- Claim C7: with no memoized handle and an empty base endpoint or model
identifier, both Chat and ChatStream fail with the configuration error, and
the result does not depend on the transport at all, so no network I O is
attempted. -/
theorem config_error_no_transport
    (c : Client) (h0 : c.oa = none) (hbm : c.BaseURL = "" ∨ c.Model = "") :
    ∃ e, (e = VllmError.baseURLEmpty ∨ e = VllmError.modelEmpty)
      ∧ (∀ (transport : OpenAIClient → ChatCompletionRequest →
            Except String ChatCompletionResponse) (req : ChatRequest),
          c.Chat transport req = (none, some e))
      ∧ (∀ (stransport : OpenAIClient → ChatCompletionRequest →
            Except String (List StreamEvent)) (req : ChatRequest),
          c.ChatStream stransport req = (none, some e)) := by
  by_cases hb : c.BaseURL = ""
  · refine ⟨VllmError.baseURLEmpty, Or.inl rfl, ?_, ?_⟩ <;>
      · intro t req
        simp [Client.Chat, Client.ChatStream, Client.newOpenAIClient, h0, hb]
  · have hm : c.Model = "" := by
      rcases hbm with h | h
      · exact absurd h hb
      · exact h
    refine ⟨VllmError.modelEmpty, Or.inr rfl, ?_, ?_⟩ <;>
      · intro t req
        simp [Client.Chat, Client.ChatStream, Client.newOpenAIClient, h0, hb, hm]

/-- Witness for claim C7 at a concrete client with an empty base URL. -/
theorem config_error_no_transport_witness :
    ∃ e, (e = VllmError.baseURLEmpty ∨ e = VllmError.modelEmpty)
      ∧ (∀ (transport : OpenAIClient → ChatCompletionRequest →
            Except String ChatCompletionResponse) (req : ChatRequest),
          Client.Chat { BaseURL := "", Model := "mistral", APIKey := "dummy", oa := none }
            transport req = (none, some e))
      ∧ (∀ (stransport : OpenAIClient → ChatCompletionRequest →
            Except String (List StreamEvent)) (req : ChatRequest),
          Client.ChatStream { BaseURL := "", Model := "mistral", APIKey := "dummy", oa := none }
            stransport req = (none, some e)) :=
  config_error_no_transport
    { BaseURL := "", Model := "mistral", APIKey := "dummy", oa := none } rfl (Or.inl rfl)

/-- Claim C8: when the transport fails to establish the stream at open time,
ChatStream fails immediately with the stream-open error wrapping the
underlying cause; and in every outcome of ChatStream the cursor is nil
exactly when the error is non-nil. -/
theorem stream_open_error
    (c : Client) (oa : OpenAIClient) (hoa : c.oa = some oa)
    (transport : OpenAIClient → ChatCompletionRequest → Except String (List StreamEvent))
    (req : ChatRequest) (e : String)
    (ht : transport oa
        { Model := c.Model, Messages := toWireMessages req.Messages, Stream := true } =
      Except.error e) :
    c.ChatStream transport req = (none, some (VllmError.streamError e))
  ∧ (∀ (c2 : Client)
       (transport2 : OpenAIClient → ChatCompletionRequest → Except String (List StreamEvent))
       (req2 : ChatRequest),
       (c2.ChatStream transport2 req2).1 = none ↔ (c2.ChatStream transport2 req2).2 ≠ none) := by
  constructor
  · simp [Client.ChatStream, Client.newOpenAIClient, hoa, ht, streamContinue]
  · intro c2 transport2 req2
    unfold Client.ChatStream
    match h : c2.newOpenAIClient with
    | Except.error e2 => simp
    | Except.ok (oa2, c3) =>
      unfold streamContinue
      cases h2 : transport2 oa2
          { Model := c2.Model, Messages := toWireMessages req2.Messages, Stream := true } <;>
        simp [h2]

/-- Witness for claim C8 at the concrete configured client and a transport
that rejects the stream open. -/
theorem stream_open_error_witness :
    clientW.ChatStream (fun _ _ => Except.error "status 500") reqW =
      (none, some (VllmError.streamError "status 500")) :=
  (stream_open_error clientW oaW rfl (fun _ _ => Except.error "status 500") reqW
    "status 500" rfl).1

/-- Claim C9: the message translation preserves length and order, each wire
message carries the source role as a bare string and the source content
unchanged, the empty sequence translates to the empty sequence, and both
Chat and ChatStream hand the transport exactly the translated messages. -/
theorem wire_translation
    (c : Client) (oa : OpenAIClient) (hoa : c.oa = some oa) :
    (∀ (ms : List Message), (toWireMessages ms).length = ms.length)
  ∧ (∀ (ms : List Message) (i : Nat),
       ((toWireMessages ms)[i]?).map (fun wm => wm.Role) =
         (ms[i]?).map (fun m => m.Role)
     ∧ ((toWireMessages ms)[i]?).map (fun wm => wm.Content) =
         (ms[i]?).map (fun m => m.Content))
  ∧ toWireMessages [] = []
  ∧ (∀ (transport : OpenAIClient → ChatCompletionRequest →
        Except String ChatCompletionResponse) (req : ChatRequest),
       c.Chat transport req =
         chatContinue (transport oa
           { Model := c.Model, Messages := toWireMessages req.Messages, Stream := false }))
  ∧ (∀ (stransport : OpenAIClient → ChatCompletionRequest →
        Except String (List StreamEvent)) (req : ChatRequest),
       c.ChatStream stransport req =
         streamContinue (stransport oa
           { Model := c.Model, Messages := toWireMessages req.Messages, Stream := true })) := by
  refine ⟨?_, ?_, rfl, ?_, ?_⟩
  · intro ms
    simp [toWireMessages]
  · intro ms i
    constructor <;> · cases h : ms[i]? <;> simp [toWireMessages, h]
  · intro transport req
    simp [Client.Chat, Client.newOpenAIClient, hoa]
  · intro stransport req
    simp [Client.ChatStream, Client.newOpenAIClient, hoa]

/-- Witness for claim C9 at the concrete configured client. -/
theorem wire_translation_witness :
    (∀ (ms : List Message), (toWireMessages ms).length = ms.length)
  ∧ (∀ (ms : List Message) (i : Nat),
       ((toWireMessages ms)[i]?).map (fun wm => wm.Role) =
         (ms[i]?).map (fun m => m.Role)
     ∧ ((toWireMessages ms)[i]?).map (fun wm => wm.Content) =
         (ms[i]?).map (fun m => m.Content))
  ∧ toWireMessages [] = []
  ∧ (∀ (transport : OpenAIClient → ChatCompletionRequest →
        Except String ChatCompletionResponse) (req : ChatRequest),
       clientW.Chat transport req =
         chatContinue (transport oaW
           { Model := clientW.Model, Messages := toWireMessages req.Messages,
             Stream := false }))
  ∧ (∀ (stransport : OpenAIClient → ChatCompletionRequest →
        Except String (List StreamEvent)) (req : ChatRequest),
       clientW.ChatStream stransport req =
         streamContinue (stransport oaW
           { Model := clientW.Model, Messages := toWireMessages req.Messages,
             Stream := true })) :=
  wire_translation clientW oaW rfl

end Vllm
